import Mathlib

/-!
Verification development for the B2B-SmartMarketing-SaaS repository.

The repository has two independent stores for discovered leads:
a CLI tool persisting to a spreadsheet (`src/core/sheets_manager.py`)
and a multi-tenant backend persisting `Lead` documents to a document
database (`backend/services/lead_discovery_service.py` and friends).
This file gives a shallow embedding of the data model and the operations
the claims are about, translated from the Python source, and proves or
refutes each claim.
-/

/-! ## Python string primitives

Character-list models of the Python `str` methods used by the source:
`lower`, `strip`, `rstrip('/')`, `replace`, `split(sep, 1)`, `title`,
and substring containment.  ASCII-oriented, which covers every string
the claims touch.
-/

namespace PyStr

/-- Models Python `str.lower()` (ASCII case folding). -/
def lower (s : String) : String := String.mk (s.data.map Char.toLower)

/-- Models Python `str.strip()`: drop leading and trailing whitespace. -/
def strip (s : String) : String :=
  String.mk (((s.data.dropWhile Char.isWhitespace).reverse.dropWhile Char.isWhitespace).reverse)

/-- Models Python `str.rstrip('/')`: drop every trailing `'/'`. -/
def rstripSlash (s : String) : String :=
  String.mk ((s.data.reverse.dropWhile (fun c => c = '/')).reverse)

/-- Models Python `str.replace(pat, repl)` for a non-empty pattern:
left-to-right, non-overlapping replacement of every occurrence.  The
`fuel` argument makes the recursion structural; every step consumes at
least one character, so any fuel at least the input length is exact. -/
def replaceFuel (pat repl : List Char) : Nat → List Char → List Char
  | _, [] => []
  | 0, l => l
  | fuel + 1, c :: cs =>
    if pat ≠ [] ∧ pat.isPrefixOf (c :: cs) then
      repl ++ replaceFuel pat repl fuel ((c :: cs).drop pat.length)
    else
      c :: replaceFuel pat repl fuel cs

/-- Models Python `str.replace(pat, repl)`. -/
def replace (s pat repl : String) : String :=
  String.mk (replaceFuel pat.data repl.data s.data.length s.data)

/-- Models Python `str.split(sep, 1)` when the separator occurs:
returns the text before the first occurrence and the text after it,
or `none` when the separator does not occur. -/
def splitFirstAux (pat : List Char) : List Char → Option (List Char × List Char)
  | [] => none
  | c :: cs =>
    if pat.isPrefixOf (c :: cs) then
      some ([], (c :: cs).drop pat.length)
    else
      match splitFirstAux pat cs with
      | none => none
      | some (pre, post) => some (c :: pre, post)

/-- Models Python `s.split(pat, 1)` restricted to a non-empty pattern. -/
def splitFirst (s pat : String) : Option (String × String) :=
  match splitFirstAux pat.data s.data with
  | none => none
  | some (pre, post) => some (String.mk pre, String.mk post)

/-- Boolean substring containment, models Python `pat in s`. -/
def containsPat (pat : List Char) : List Char → Bool
  | [] => pat.isEmpty
  | c :: cs => pat.isPrefixOf (c :: cs) || containsPat pat cs

/-- Models Python `pat in s` for strings. -/
def containsStr (s pat : String) : Bool := containsPat pat.data s.data

/-- Helper for `title`: Python `str.title()` over a character list, carrying
whether the previous character was alphabetic. -/
def titleAux : Bool → List Char → List Char
  | _, [] => []
  | prevAlpha, c :: cs =>
    if c.isAlpha then
      (if prevAlpha then c.toLower else c.toUpper) :: titleAux true cs
    else
      c :: titleAux false cs

/-- Models Python `str.title()` (ASCII): upper-case each letter that follows
a non-letter, lower-case the other letters. -/
def title (s : String) : String := String.mk (titleAux false s.data)

/-- Helper for `splitLines`: accumulate the current line (reversed). -/
def splitLinesAux (cur : List Char) : List Char → List String
  | [] => [String.mk cur.reverse]
  | c :: cs =>
    if c = '\n' then String.mk cur.reverse :: splitLinesAux [] cs
    else splitLinesAux (c :: cur) cs

/-- Models Python `s.split('\n')` (unlimited split on a single newline;
never returns an empty list). -/
def splitLines (s : String) : List String := splitLinesAux [] s.data

/-- Python truthiness of an optional string: `None` and `""` are falsy. -/
def truthy : Option String → Bool
  | none => false
  | some s => s ≠ ""

end PyStr

/-! ## CLI Sheets Manager (`src/core/sheets_manager.py`)

The spreadsheet is modelled as the list of data rows below the header,
each row a list of cell strings in column order A..K.
-/

namespace SheetsManager

/-- The fixed 11-column header schema (`SheetsManager.HEADERS`). -/
def HEADERS : List String :=
  ["Company Name", "Website", "Contact Email", "Industry", "Services Matched",
   "Email Draft Subject", "Email Draft Body", "Portfolio File Path",
   "Date Added", "Status", "Notes"]

/-- One spreadsheet row: the list of cell strings (column A at index 0). -/
abbrev Row := List String

/-- The sheet state: the data rows below the header row. -/
abbrev Sheet := List Row

/-- URL normalization used by `is_duplicate` and `update_lead_status`:
`website.lower().strip().rstrip('/')`. -/
def normalizeWebsite (w : String) : String :=
  PyStr.rstripSlash (PyStr.strip (PyStr.lower w))

/-- The website cell of a row as the spreadsheet `B:B` range reports it:
`none` when the cell is absent or empty (the Sheets API returns an empty
row for an empty `B` cell and the code skips it via `if row:`). -/
def websiteCell (row : Row) : Option String :=
  match row.get? 1 with
  | none => none
  | some cell => if cell = "" then none else some cell

/-- `SheetsManager.is_duplicate(website)`: `False` on an empty argument,
otherwise true iff some data row's website cell matches after
normalization of both sides. -/
def is_duplicate (sheet : Sheet) (website : String) : Bool :=
  if website = "" then false
  else
    sheet.any fun row =>
      match websiteCell row with
      | none => false
      | some cell => normalizeWebsite cell = normalizeWebsite website

/-- Input to `add_lead`: the lead field map (a missing key and an empty
value coincide, matching `lead_data.get(key, '')`). -/
structure LeadData where
  company_name : String := ""
  website : String := ""
  contact_email : String := ""
  industry : String := ""
  matched_services : List String := []
  email_subject : String := ""
  email_body : String := ""
  portfolio_path : String := ""

/-- The row `add_lead` appends (the `row_data` list in the source); `now`
stands for `datetime.now().strftime(...)`. -/
def rowOfLead (d : LeadData) (now : String) : Row :=
  [d.company_name, d.website, d.contact_email, d.industry,
   String.intercalate ", " d.matched_services,
   d.email_subject, d.email_body, d.portfolio_path, now, "New", ""]

/-- Result dictionary of `add_lead`. -/
structure AddResult where
  success : Bool
  dup : Bool

/-- `SheetsManager.add_lead(lead_data)`: reject as a duplicate when
`is_duplicate` fires, otherwise append one new row. -/
def add_lead (sheet : Sheet) (d : LeadData) (now : String) : AddResult × Sheet :=
  if is_duplicate sheet d.website then
    ({ success := false, dup := true }, sheet)
  else
    ({ success := true, dup := false }, sheet ++ [rowOfLead d now])

/-- Fold of `add_lead` over a list of (lead, timestamp) inserts. -/
def addAll (sheet : Sheet) : List (LeadData × String) → Sheet
  | [] => sheet
  | (d, now) :: rest => addAll (add_lead sheet d now).2 rest

/-- The normalized websites stored in a sheet (empty cells excluded). -/
def normWebsites (sheet : Sheet) : List String :=
  sheet.filterMap fun row => (websiteCell row).map normalizeWebsite

/-- The deduplication invariant: no two stored rows share a normalized
website. -/
def NoDupWebsites (sheet : Sheet) : Prop := (normWebsites sheet).Nodup

instance : DecidablePred NoDupWebsites := fun sheet =>
  inferInstanceAs (Decidable (normWebsites sheet).Nodup)

/-- `SheetsManager.update_lead_status(website, status, notes)`: find the
first row whose website column matches after normalization; write `status`
into spreadsheet column `I` (0-based cell index 8) and, when `notes` is
non-empty, `notes` into column `J` (cell index 9); return `False` when no
row matches. -/
def update_lead_status (sheet : Sheet) (website status notes : String) :
    Bool × Sheet :=
  match sheet.findIdx? (fun row =>
      match websiteCell row with
      | none => false
      | some cell => normalizeWebsite cell = normalizeWebsite website) with
  | none => (false, sheet)
  | some i =>
    let row := (sheet.get? i).getD []
    let row1 := if status ≠ "" then row.set 8 status else row
    let row2 := if notes ≠ "" then row1.set 9 notes else row1
    (true, sheet.set i row2)

end SheetsManager

/-! ## Backend data model (`backend/models/*.py`)

Documents are modelled as structures carrying the fields the claims touch;
database identities are plain `Nat`s and datetimes are abstract keys. -/

namespace Backend

/-- The backend `User` document (`models/user.py`), restricted to the
fields the claims read or write.  `Option` models a nullable field; the
defaults are the model's defaults. -/
structure User where
  id : Nat
  email : String := ""
  full_name : String := ""
  company_name : Option String := none
  plan : String := "free"
  lead_limit : Nat := 50
  leads_used : Nat := 0
  serpapi_key : Option String := none
  hunter_api_key : Option String := none
  google_sheets_enabled : Bool := false
  smtp_host : Option String := none
  smtp_port : Option Nat := none
  smtp_username : Option String := none
  smtp_password : Option String := none
  smtp_from_email : Option String := none
  smtp_from_name : Option String := none
deriving DecidableEq

/-- The backend `Lead` document (`models/lead.py`), restricted to the
fields the claims touch; `user_id` models the owner `Link` and `Option`
models the nullable fields. -/
structure Lead where
  user_id : Nat
  company_name : String
  website : String := ""
  industry : Option String := none
  services : String := ""
  contact_email : Option String := none
  email_subject : String := ""
  email_body : String := ""
  status : String := "new"
deriving DecidableEq

/-- A `UsageTracking` document (`models/usage.py`); `month` is an abstract
key standing for the first-of-month datetime. -/
structure UsageRow where
  user_id : Nat
  month : Nat
  leads_discovered : Nat := 0
  emails_sent : Nat := 0
  api_calls : Nat := 0
  pdfs_generated : Nat := 0
deriving DecidableEq

/-- Models a Python f-string interpolation of an `Optional[str]` value
(`None` renders as the text "None"). -/
def pyOptStr : Option String → String
  | none => "None"
  | some s => s

/-! ### Leads API (`backend/api/leads.py`) -/

/-- The per-plan request cap `limits = {"free": 10, "pro": 100,
"enterprise": 999999}` looked up with `limits.get(plan, 10)`. -/
def planLimit (plan : String) : Nat :=
  if plan = "free" then 10
  else if plan = "pro" then 100
  else if plan = "enterprise" then 999999
  else 10

/-- An HTTP error response (`HTTPException(status_code, detail)`). -/
structure HTTPError where
  status_code : Nat
  detail : String
deriving DecidableEq

/-- Outcome of `POST /api/leads/discover`: either an HTTP rejection raised
before the background task is added, or a started task (the only outcome
that schedules `discover_leads_task`, so a rejection creates no lead and
changes no counter). -/
inductive DiscoverOutcome
  | rejected (e : HTTPError)
  | started (task_id : String)
deriving DecidableEq

/-- The `discover_leads` endpoint gate: first the monthly quota check
(`leads_used + max_leads > lead_limit` → 402, with two message variants
depending on whether any leads remain), then the per-plan cap check
(`max_leads > limits.get(plan, 10)` → 403), then the task is scheduled. -/
def discover_leads_endpoint (u : User) (max_leads : Nat) (task_id : String) :
    DiscoverOutcome :=
  if u.leads_used + max_leads > u.lead_limit then
    if u.lead_limit - u.leads_used = 0 then
      .rejected ⟨402, "Lead limit exceeded. Upgrade your plan to generate more leads."⟩
    else
      .rejected ⟨402, "You can only generate " ++ toString (u.lead_limit - u.leads_used) ++
        " more leads this month. Upgrade your plan for more."⟩
  else if max_leads > planLimit u.plan then
    .rejected ⟨403, "Your " ++ u.plan ++ " plan allows up to " ++
      toString (planLimit u.plan) ++ " leads"⟩
  else
    .started task_id

/-! ### Lead discovery service (`backend/services/lead_discovery_service.py`) -/

/-- One business record produced by `SearchService.search_businesses`. -/
structure Business where
  company_name : String := "Unknown"
  website : String := ""
  description : String := ""

/-- The request fields `discover_leads_task` reads from `request_data`.
Each string field is doubly optional: the outer `Option` models whether
the dictionary key is present at all, the inner one whether its value is
`None` — the production caller (`request.dict()` in `api/leads.py`)
always includes `target_industry`, with value `None` when the client
omits it.  `max_leads` is a non-nullable `int` in the request model, so a
single `Option` (key presence) suffices. -/
structure DiscoverRequest where
  target_industry : Option (Option String) := none
  target_region : Option (Option String) := none
  max_leads : Option Nat := none

/-- Models `request_data.get(key, default)` for a nullable string field:
an absent key yields the (string) default, a present key yields its
value, which may be `None`. -/
def pyDictGet (v : Option (Option String)) (dflt : String) : Option String :=
  match v with
  | none => some dflt
  | some value => value

/-- One entry of the `demo_leads` template list inside
`_create_demo_leads` (its `region` key — possibly `None` — is never
copied into the inserted `Lead`). -/
structure DemoTemplate where
  company_name : String
  website : String
  contact_email : String
  industry : String
  region : Option String

/-- The three-element `demo_leads` template list of `_create_demo_leads`. -/
def demo_leads_list (industry : String) (region : Option String) : List DemoTemplate :=
  [{ company_name := "Demo " ++ PyStr.title industry ++ " Company 1",
     website := "https://demo" ++ industry ++ "1.com",
     contact_email := "contact@demo" ++ industry ++ "1.com",
     industry := industry, region := region },
   { company_name := "Sample " ++ PyStr.title industry ++ " Business 2",
     website := "https://sample" ++ industry ++ "2.com",
     contact_email := "info@sample" ++ industry ++ "2.com",
     industry := industry, region := region },
   { company_name := "Test " ++ PyStr.title industry ++ " Corp 3",
     website := "https://test" ++ industry ++ "3.com",
     contact_email := "hello@test" ++ industry ++ "3.com",
     industry := industry, region := region }]

/-- Python `s[:n]`. -/
def pyTake (n : Nat) (s : String) : String := String.mk (s.data.take n)

/-- `_create_demo_leads(user, request_data, task_id)`: insert
`demo_leads[:min(request_data.get('max_leads', 5), 5)]` as `Lead`
documents, incrementing `user.leads_used` once per insert.  Returns the
inserted documents and the updated user.  When `target_industry` is
present with value `None`, building the template list raises
`AttributeError` at `industry.title()` before anything is inserted —
modelled as the `error` outcome. -/
def create_demo_leads (u : User) (r : DiscoverRequest) :
    Except String (List Lead × User) :=
  match pyDictGet r.target_industry "businesses" with
  | none =>
    Except.error "AttributeError: NoneType object has no attribute title"
  | some industry =>
    let region := pyDictGet r.target_region "Global"
    let max_leads := min (r.max_leads.getD 5) 5
    let inserted := ((demo_leads_list industry region).take max_leads).map fun t =>
      { user_id := u.id, company_name := t.company_name, website := t.website,
        industry := some t.industry, services := "Services in " ++ industry,
        contact_email := some t.contact_email,
        email_subject := "Partnership Opportunity with " ++ pyOptStr u.company_name,
        email_body := "Hi, We noticed your company " ++ t.company_name ++
          " and think there could be great partnership opportunities...",
        status := "new" }
    Except.ok (inserted, { u with leads_used := u.leads_used + inserted.length })

/-- The task's demo-lead fallback as observed from outside: a raised
`AttributeError` propagates to the task's top-level `except Exception`,
which logs it and ends the task — no lead inserted and the user
unchanged. -/
def runDemoFallback (u : User) (r : DiscoverRequest) : List Lead × User :=
  match create_demo_leads u r with
  | .error _ => ([], u)
  | .ok out => out

/-- The body of the per-business loop of `discover_leads_task`: look up a
contact email when a website and a (truthy) Hunter key are both present,
generate the outreach email, insert one `Lead`, and increment the user's
`leads_used`. -/
def processBusiness (industry : Option String)
    (findEmail : String → String → Option String)
    (genEmail : String → Option String → String → String × String)
    (acc : List Lead × User) (b : Business) : List Lead × User :=
  let contact_email :=
    if b.website ≠ "" ∧ PyStr.truthy acc.2.hunter_api_key then
      findEmail b.website b.company_name
    else none
  let ed := genEmail b.company_name industry b.description
  let lead : Lead :=
    { user_id := acc.2.id, company_name := b.company_name, website := b.website,
      industry := industry,
      services := if b.description ≠ "" then pyTake 500 b.description
                  else "Services in " ++ pyOptStr industry,
      contact_email := contact_email, email_subject := ed.1, email_body := ed.2,
      status := "new" }
  (acc.1 ++ [lead], { acc.2 with leads_used := acc.2.leads_used + 1 })

/-- `discover_leads_task(task_id, user_id, request_data)`: fall back to
demo leads when the user has no (truthy) SerpAPI key, when the search
returns a structured error, or when it returns no businesses; otherwise
run the per-business loop, which performs no duplicate check of any
kind.  The external calls are parameters: `search` is the
`SearchService.search_businesses` outcome, `findEmail` the
`SearchService.find_email` result for a (website, company) pair, and
`genEmail` the `AIService.generate_email` (subject, body) for a
(company, industry, description) triple. -/
def discover_leads_task (u : User) (r : DiscoverRequest)
    (search : Except String (List Business))
    (findEmail : String → String → Option String)
    (genEmail : String → Option String → String → String × String) :
    List Lead × User :=
  if PyStr.truthy u.serpapi_key = false then runDemoFallback u r
  else
    match search with
    | .error _ => runDemoFallback u r
    | .ok [] => runDemoFallback u r
    | .ok businesses =>
      businesses.foldl
        (processBusiness (pyDictGet r.target_industry "businesses")
          findEmail genEmail)
        ([], u)

/-! ### Email service (`backend/services/email_service.py`) -/

/-- Outcome of the SMTP session `send_email` would open: models the world
outside the process (connection, STARTTLS, login, send). -/
inductive SMTPResult
  | ok
  | authError
  | smtpError (msg : String)
  | otherError (msg : String)
deriving DecidableEq

/-- The structured result dictionary of `EmailService.send_email`. -/
structure SendResult where
  success : Bool
  message : String
deriving DecidableEq

/-- The `all([smtp_host, smtp_port, smtp_username, smtp_password,
smtp_from_email])` configuration check (Python truthiness: `None`, `""`
and `0` are falsy). -/
def smtpConfigured (u : User) : Bool :=
  PyStr.truthy u.smtp_host &&
  (match u.smtp_port with | some p => p ≠ 0 | none => false) &&
  PyStr.truthy u.smtp_username &&
  PyStr.truthy u.smtp_password &&
  PyStr.truthy u.smtp_from_email

/-- `EmailService.track_email_sent(user)`: find the usage row for
(user, current month start); increment its `emails_sent` if found, else
create it with `emails_sent = 1`. -/
def track_email_sent (uid month : Nat) : List UsageRow → List UsageRow
  | [] => [{ user_id := uid, month := month, emails_sent := 1 }]
  | row :: rest =>
    if row.user_id = uid ∧ row.month = month then
      { row with emails_sent := row.emails_sent + 1 } :: rest
    else
      row :: track_email_sent uid month rest

/-- Total `emails_sent` recorded for a user in a month. -/
def emailsSentInMonth (uid month : Nat) (usage : List UsageRow) : Nat :=
  ((usage.filter (fun row => row.user_id = uid ∧ row.month = month)).map
    (fun row => row.emails_sent)).sum

/-- `EmailService.send_email(user, lead, subject, body)`: fail fast when
the SMTP configuration is incomplete, then when the lead has no contact
email — in both cases before any SMTP connection, so the result does not
depend on the `smtp` world parameter.  On a successful SMTP send, set the
lead's status to `contacted`, persist it, and run `track_email_sent` for
the current month.  The optional `subject`/`body` overrides only shape the
message text and are omitted from the model's outputs. -/
def send_email (u : User) (lead : Lead) (smtp : SMTPResult) (month : Nat)
    (usage : List UsageRow) : SendResult × Lead × List UsageRow :=
  if smtpConfigured u = false then
    ({ success := false,
       message := "SMTP not configured. Please configure SMTP settings first." },
     lead, usage)
  else if PyStr.truthy lead.contact_email = false then
    ({ success := false, message := "Lead has no email address" }, lead, usage)
  else
    match smtp with
    | .ok =>
      ({ success := true,
         message := "Email sent successfully to " ++ pyOptStr lead.contact_email },
       { lead with status := "contacted" },
       track_email_sent u.id month usage)
    | .authError =>
      ({ success := false,
         message := "SMTP authentication failed. Please check your username and password." },
       lead, usage)
    | .smtpError m =>
      ({ success := false, message := "SMTP error: " ++ m }, lead, usage)
    | .otherError m =>
      ({ success := false, message := "Failed to send email: " ++ m }, lead, usage)

end Backend

/-! ## Web Analyzer (`src/core/web_analyzer.py`) -/

namespace WebAnalyzer

/-- One element matched by the `soup.find_all(['div', 'section', 'ul'],
class_=...)` scan of `_extract_services`: its class attribute values, the
text of its `li` descendants, and the text of its `h2`/`h3`/`h4`
descendants. -/
structure SoupSection where
  classes : List String
  listItems : List String
  headings : List String

/-- The parsed page, restricted to what `_extract_services` consumes. -/
structure Soup where
  sections : List SoupSection

/-- The `service_keywords` list. -/
def service_keywords : List String :=
  ["service", "solution", "offering", "product", "expertise", "specialization"]

/-- The class filter `lambda x: x and keyword in x.lower()`: true when a
class value contains the keyword after lower-casing. -/
def sectionMatches (kw : String) (sec : SoupSection) : Bool :=
  sec.classes.any fun c => PyStr.containsStr (PyStr.lower c) kw

/-- The `if service_text and len(service_text) < 100` guard. -/
def keepText (t : String) : Bool := t ≠ "" && t.length < 100

/-- Texts collected from one matched element: stripped list-item texts
first, then stripped sub-heading texts, filtered by `keepText`. -/
def sectionTexts (sec : SoupSection) : List String :=
  (sec.listItems.map PyStr.strip).filter keepText ++
  (sec.headings.map PyStr.strip).filter keepText

/-- Helper for first-occurrence deduplication: `seen` holds the values
already emitted. -/
def dedupFirstAux (seen : List String) : List String → List String
  | [] => []
  | x :: xs =>
    if x ∈ seen then dedupFirstAux seen xs
    else x :: dedupFirstAux (x :: seen) xs

/-- Models Python `list(dict.fromkeys(xs))`. -/
def dedupFirst (xs : List String) : List String := dedupFirstAux [] xs

/-- The full collection pass of `_extract_services`: for each keyword in
order, for each matching element, the kept texts. -/
def collectedServices (soup : Soup) : List String :=
  service_keywords.flatMap fun kw =>
    (soup.sections.filter (sectionMatches kw)).flatMap sectionTexts

/-- `WebAnalyzer._extract_services(soup)`: collect texts per keyword and
matching element, deduplicate keeping first occurrences, cap at 15, and
fall back to the single placeholder when nothing was collected. -/
def extract_services (soup : Soup) : List String :=
  let services := (dedupFirst (collectedServices soup)).take 15
  if services = [] then ["General Business Services"] else services

/-- Result of `analyze_website` restricted to the claim-relevant fields
(`url`, `services`, `success`, `error`; the other extracted fields do not
appear in any claim). -/
structure AnalyzeResult where
  url : String
  services : List String
  success : Bool
  error : Option String

/-- `WebAnalyzer.analyze_website(url)` with the network fetch and HTML
parse abstracted into the `fetch` parameter.  A fetch failure
(`requests.RequestException`) returns the structured failure dictionary,
whose `services` field is the empty list. -/
def analyze_website (url : String) (fetch : Except String Soup) : AnalyzeResult :=
  match fetch with
  | .error e => { url := url, services := [], success := false, error := some e }
  | .ok soup =>
    { url := url, services := extract_services soup, success := true, error := none }

end WebAnalyzer

/-! ## Lead Discovery (`src/core/lead_discovery.py`) -/

namespace LeadDiscovery

/-- Characters allowed after the first letter of a URL scheme
(`urllib.parse`: letters, digits, `+`, `-`, `.`). -/
def isSchemeChar (c : Char) : Bool := c.isAlphanum || c = '+' || c = '-' || c = '.'

/-- Drops a valid `scheme:` prefix, if present, from a URL's characters:
the text before the first `:` must be non-empty, start with a letter and
consist of scheme characters. -/
def dropScheme (l : List Char) : List Char :=
  let pre := l.takeWhile (fun c => c ≠ ':')
  if pre.length < l.length ∧ pre ≠ [] ∧
      (pre.headD ' ').isAlpha ∧ pre.all isSchemeChar then
    l.drop (pre.length + 1)
  else l

/-- Models the `(netloc, path)` slice of Python `urllib.parse.urlparse`:
after an optional `scheme:`, a netloc is parsed only when the remainder
starts with `//` and runs until the next `/`, `?` or `#`; the path runs
until the next `?` or `#`.  `urlparse` raises `ValueError` ("Invalid IPv6
URL") — `none` here — exactly when the netloc contains one of `[`/`]`
without the other. -/
def parseNetlocPath (url : String) : Option (String × String) :=
  match dropScheme url.data with
  | '/' :: '/' :: r =>
    let netloc := r.takeWhile fun c => c ≠ '/' ∧ c ≠ '?' ∧ c ≠ '#'
    let path := (r.drop netloc.length).takeWhile fun c => c ≠ '?' ∧ c ≠ '#'
    if (netloc.contains '[') ≠ (netloc.contains ']') then none
    else some (String.mk netloc, String.mk path)
  | r => some ("", String.mk (r.takeWhile fun c => c ≠ '?' ∧ c ≠ '#'))

/-- `LeadDiscovery._extract_domain(url)`: `netloc or path`, then
`.replace('www.', '')` (every occurrence, case-sensitive, before
lower-casing), then `.lower()`; on parse failure, `url.lower()`. -/
def extract_domain (url : String) : String :=
  match parseNetlocPath url with
  | none => PyStr.lower url
  | some (netloc, path) =>
    let domain := if netloc ≠ "" then netloc else path
    PyStr.lower (PyStr.replace domain "www." "")

/-- Strips one leading `www.`, as the claim's words describe. -/
def stripLeadingWww (s : String) : String :=
  if ("www.".data).isPrefixOf s.data then String.mk (s.data.drop 4) else s

/-- The claim's description of `_extract_domain`, written from the spec's
words for comparison with the source definition: lower-case the network
location (or path), then strip a single leading `www.` prefix. -/
def extract_domain_claimVersion (url : String) : String :=
  match parseNetlocPath url with
  | none => PyStr.lower url
  | some (netloc, path) =>
    stripLeadingWww (PyStr.lower (if netloc ≠ "" then netloc else path))

/-- Left-to-right, non-overlapping removal of every occurrence of the
four characters `www.` — an independent character-level rendering of
`str.replace('www.', '')`, used to state the amended claim. -/
def removeWwwDot : List Char → List Char
  | 'w' :: 'w' :: 'w' :: '.' :: rest => removeWwwDot rest
  | c :: rest => c :: removeWwwDot rest
  | [] => []

/-- The amended claim's description of `_extract_domain`: remove every
occurrence of `www.` from the raw netloc-or-path, then lower-case; on
parse failure, the lower-cased raw input. -/
def extract_domain_amendedSpec (url : String) : String :=
  match parseNetlocPath url with
  | none => PyStr.lower url
  | some (netloc, path) =>
    PyStr.lower (String.mk (removeWwwDot (if netloc ≠ "" then netloc else path).data))

end LeadDiscovery

/-! ## Analytics (`src/utils/analytics.py`)

The ledger is modelled in memory: loading/saving the JSON file and the
timestamps are outside the claims.  The run counts are natural numbers —
every call site (`cli.py`) passes counters accumulated from zero. -/

namespace Analytics

/-- One run record (the `run_data` dictionary appended to `runs`). -/
structure RunRecord where
  business_name : String := ""
  leads_found : Nat := 0
  emails_generated : Nat := 0
  portfolios_created : Nat := 0
  duplicates : Nat := 0
  industries : List String := []
  success : Bool := true
  error : Option String := none
deriving DecidableEq

/-- The analytics ledger (`self.data`), without the display-only
timestamp fields. -/
structure Data where
  total_runs : Nat := 0
  total_leads_discovered : Nat := 0
  total_emails_generated : Nat := 0
  total_portfolios_created : Nat := 0
  total_duplicates_found : Nat := 0
  industries : List (String × Nat) := []
  runs : List RunRecord := []
deriving DecidableEq

/-- `_initialize_data()`: the zeroed ledger. -/
def initData : Data := {}

/-- One step of `self.data["industries"][industry] =
self.data["industries"].get(industry, 0) + 1` on an insertion-ordered
dictionary. -/
def bumpIndustry : List (String × Nat) → String → List (String × Nat)
  | [], ind => [(ind, 1)]
  | (k, v) :: rest, ind =>
    if k = ind then (k, v + 1) :: rest
    else (k, v) :: bumpIndustry rest ind

/-- The count recorded for one industry in the dictionary. -/
def industryCount (m : List (String × Nat)) (ind : String) : Nat :=
  ((m.filter (fun kv => kv.1 = ind)).map (fun kv => kv.2)).sum

/-- `Analytics.record_run(...)`: bump the five cumulative totals, bump a
per-industry counter for each industry of the run, and append the run
record to history. -/
def record_run (d : Data) (r : RunRecord) : Data :=
  { d with
    total_runs := d.total_runs + 1,
    total_leads_discovered := d.total_leads_discovered + r.leads_found,
    total_emails_generated := d.total_emails_generated + r.emails_generated,
    total_portfolios_created := d.total_portfolios_created + r.portfolios_created,
    total_duplicates_found := d.total_duplicates_found + r.duplicates,
    industries := r.industries.foldl bumpIndustry d.industries,
    runs := d.runs ++ [r] }

/-- A sequence of `record_run` calls. -/
def record_runs (d : Data) : List RunRecord → Data
  | [] => d
  | r :: rest => record_runs (record_run d r) rest

/-- Models Python `round(q, 2)` over the exact rational value of the
computed ratio (the claims only exercise values where the float and the
exact rational rounding agree). -/
def roundTo2 (q : ℚ) : ℚ := ((round (q * 100) : ℤ) : ℚ) / 100

/-- `Analytics._calculate_success_rate()`: `0.0` with no recorded runs,
else `round((successful / total) * 100, 2)` computed over the `runs`
history. -/
def calculate_success_rate (d : Data) : ℚ :=
  if d.runs = [] then 0
  else roundTo2 (((d.runs.filter (fun r => r.success)).length : ℚ)
    / (d.runs.length : ℚ) * 100)

/-- `Analytics._calculate_avg_leads_per_run()`. -/
def calculate_avg_leads_per_run (d : Data) : ℚ :=
  if d.total_runs = 0 then 0
  else roundTo2 ((d.total_leads_discovered : ℚ) / (d.total_runs : ℚ))

/-- The scalar fields of `get_summary()` (`top_industries` and `last_run`
are display-only selections of the same data and are omitted). -/
structure Summary where
  total_runs : Nat
  total_leads : Nat
  total_emails : Nat
  total_portfolios : Nat
  total_duplicates : Nat
  unique_industries : Nat
  avg_leads_per_run : ℚ
  success_rate : ℚ

/-- `Analytics.get_summary()`. -/
def get_summary (d : Data) : Summary :=
  { total_runs := d.total_runs,
    total_leads := d.total_leads_discovered,
    total_emails := d.total_emails_generated,
    total_portfolios := d.total_portfolios_created,
    total_duplicates := d.total_duplicates_found,
    unique_industries := d.industries.length,
    avg_leads_per_run := calculate_avg_leads_per_run d,
    success_rate := calculate_success_rate d }

end Analytics

/-! ## AI Generator (`src/core/ai_generator.py`) -/

namespace AIGenerator

/-- `AIGenerator._parse_email_response(response)`: split at the first
`BODY:`; if present, the part before it (with every `SUBJECT:` stripped,
trimmed) is the subject and the trimmed remainder is the body; otherwise
the stripped response is split into lines — the first line (processed the
same way) becomes the subject and, when there are further lines, their
newline-join becomes the body, else the whole original response does
(both with `BODY:` stripped and trimmed). -/
def parse_email_response (response : String) : String × String :=
  match PyStr.splitFirst response "BODY:" with
  | some (subject_part, body_part) =>
    (PyStr.strip (PyStr.replace subject_part "SUBJECT:" ""), PyStr.strip body_part)
  | none =>
    let lines := PyStr.splitLines (PyStr.strip response)
    let subject := lines.headD "Partnership Opportunity"
    let body := if lines.length > 1 then String.intercalate "\n" lines.tail else response
    (PyStr.strip (PyStr.replace subject "SUBJECT:" ""),
     PyStr.strip (PyStr.replace body "BODY:" ""))

end AIGenerator

/-! ## Helper lemmas -/

namespace SheetsManager

theorem mem_normWebsites {sheet : Sheet} {x : String} :
    x ∈ normWebsites sheet ↔
      ∃ row ∈ sheet, ∃ c, websiteCell row = some c ∧ normalizeWebsite c = x := by
  simp only [normWebsites, List.mem_filterMap, Option.map_eq_some']

theorem not_mem_of_not_dup {sheet : Sheet} {w : String}
    (hdup : is_duplicate sheet w = false) (hw : w ≠ "") :
    normalizeWebsite w ∉ normWebsites sheet := by
  intro hmem
  rw [mem_normWebsites] at hmem
  obtain ⟨row, hrow, c, hc, hnorm⟩ := hmem
  rw [is_duplicate, if_neg hw] at hdup
  have hfalse := List.any_eq_false.mp hdup row hrow
  rw [hc] at hfalse
  exact hfalse (decide_eq_true hnorm)

theorem websiteCell_rowOfLead (d : LeadData) (now : String) :
    websiteCell (rowOfLead d now) = if d.website = "" then none else some d.website := by
  rfl

theorem normWebsites_append_single (sheet : Sheet) (row : Row) :
    normWebsites (sheet ++ [row]) =
      normWebsites sheet ++ ((websiteCell row).map normalizeWebsite).toList := by
  simp only [normWebsites, List.filterMap_append, List.filterMap_cons, List.filterMap_nil]
  cases h : websiteCell row <;> simp [h]

theorem noDup_add_lead {sheet : Sheet} (d : LeadData) (now : String)
    (h : NoDupWebsites sheet) : NoDupWebsites (add_lead sheet d now).2 := by
  rw [add_lead]
  by_cases hdup : is_duplicate sheet d.website
  · simpa [hdup] using h
  · rw [if_neg hdup]
    simp only [NoDupWebsites] at h ⊢
    rw [normWebsites_append_single, websiteCell_rowOfLead]
    by_cases hw : d.website = ""
    · simpa [hw] using h
    · rw [if_neg hw]
      simp only [Option.map_some', Option.toList_some]
      rw [List.nodup_append]
      refine ⟨h, List.nodup_singleton _, ?_⟩
      intro x hx hx'
      rw [List.mem_singleton] at hx'
      subst hx'
      exact not_mem_of_not_dup (Bool.eq_false_iff.mpr hdup) hw hx

theorem noDup_addAll {sheet : Sheet} (inserts : List (LeadData × String))
    (h : NoDupWebsites sheet) : NoDupWebsites (addAll sheet inserts) := by
  induction inserts generalizing sheet with
  | nil => exact h
  | cons p rest ih => exact ih (noDup_add_lead p.1 p.2 h)

theorem addAll_length_of_empty_website {sheet : Sheet} {d : LeadData}
    (hw : d.website = "") (nows : List String) :
    (addAll sheet (nows.map (fun t => (d, t)))).length = sheet.length + nows.length := by
  induction nows generalizing sheet with
  | nil => simp [addAll]
  | cons t rest ih =>
    simp only [List.map_cons, addAll]
    rw [add_lead, if_neg (by simp [is_duplicate, hw])]
    simp only [ih]
    simp only [List.length_append, List.length_cons, List.length_nil]
    omega

end SheetsManager

/-! ## Claim C5 -/

/-- C5: the claim states `update_lead_status` writes the status into the
Status column and the notes into the Notes column of the fixed 11-column
header schema.  The code instead writes to spreadsheet columns `I` and `J`
(0-based cell indices 8 and 9), which the schema declared in the very same
class (`HEADERS`, also used by `add_lead` and `get_stats`) assigns to
"Date Added" and "Status"; the "Notes" column (index 10) is left untouched.
Evaluated at a concrete one-row sheet: the status lands in the Date Added
cell and the notes land in the Status cell — the code contradicts its own
schema, an off-by-one column bug. -/
theorem C5_theorem :
    (SheetsManager.update_lead_status
        [SheetsManager.rowOfLead
          { company_name := "Acme", website := "http://acme.com",
            contact_email := "a@acme.com", industry := "Technology" }
          "2024-01-01 00:00:00"]
        "http://acme.com" "Contacted" "called them").1 = true ∧
    SheetsManager.HEADERS.get? 8 = some "Date Added" ∧
    SheetsManager.HEADERS.get? 9 = some "Status" ∧
    SheetsManager.HEADERS.get? 10 = some "Notes" ∧
    (((SheetsManager.update_lead_status
        [SheetsManager.rowOfLead
          { company_name := "Acme", website := "http://acme.com",
            contact_email := "a@acme.com", industry := "Technology" }
          "2024-01-01 00:00:00"]
        "http://acme.com" "Contacted" "called them").2.head?.getD []).get? 8
      = some "Contacted") ∧
    (((SheetsManager.update_lead_status
        [SheetsManager.rowOfLead
          { company_name := "Acme", website := "http://acme.com",
            contact_email := "a@acme.com", industry := "Technology" }
          "2024-01-01 00:00:00"]
        "http://acme.com" "Contacted" "called them").2.head?.getD []).get? 9
      = some "called them") ∧
    (((SheetsManager.update_lead_status
        [SheetsManager.rowOfLead
          { company_name := "Acme", website := "http://acme.com",
            contact_email := "a@acme.com", industry := "Technology" }
          "2024-01-01 00:00:00"]
        "http://acme.com" "Contacted" "called them").2.head?.getD []).get? 10
      = some "") := by
  decide

/-! ## Claim C10 -/

/-- C10: `is_duplicate` on the empty string always returns false, so
`add_lead` on a lead whose website field is empty (or missing, which the
source reads as `''`) never reports a duplicate and always appends one new
row; repeated insertion of website-less leads therefore grows the sheet
without bound. -/
theorem C10_theorem :
    (∀ sheet : SheetsManager.Sheet, SheetsManager.is_duplicate sheet "" = false) ∧
    (∀ (sheet : SheetsManager.Sheet) (d : SheetsManager.LeadData) (now : String),
      d.website = "" →
        (SheetsManager.add_lead sheet d now).1.success = true ∧
        (SheetsManager.add_lead sheet d now).1.dup = false ∧
        (SheetsManager.add_lead sheet d now).2 = sheet ++ [SheetsManager.rowOfLead d now]) ∧
    (∀ (sheet : SheetsManager.Sheet) (d : SheetsManager.LeadData) (nows : List String),
      d.website = "" →
        (SheetsManager.addAll sheet (nows.map (fun t => (d, t)))).length
          = sheet.length + nows.length) := by
  refine ⟨fun sheet => rfl, fun sheet d now hw => ?_, fun sheet d nows hw =>
    SheetsManager.addAll_length_of_empty_website hw nows⟩
  have hdup : SheetsManager.is_duplicate sheet d.website = false := by rw [hw]; rfl
  simp [SheetsManager.add_lead, hdup]

/-- C10, witness: three website-less insertions into the empty sheet leave
exactly three rows. -/
theorem C10_witness :
    (SheetsManager.addAll []
        (["t1", "t2", "t3"].map (fun t => (({} : SheetsManager.LeadData), t)))).length
      = ([] : SheetsManager.Sheet).length + (["t1", "t2", "t3"] : List String).length :=
  C10_theorem.2.2 [] {} ["t1", "t2", "t3"] rfl

namespace Backend

theorem emailsSentInMonth_track (uid month : Nat) (usage : List UsageRow) :
    emailsSentInMonth uid month (track_email_sent uid month usage)
      = emailsSentInMonth uid month usage + 1 := by
  induction usage with
  | nil => simp [track_email_sent, emailsSentInMonth]
  | cons row rest ih =>
    by_cases h : row.user_id = uid ∧ row.month = month
    · simp only [track_email_sent, if_pos h, emailsSentInMonth]
      rw [List.filter_cons_of_pos (by simpa using h),
        List.filter_cons_of_pos (by simpa using h)]
      simp only [List.map_cons, List.sum_cons]
      omega
    · simp only [track_email_sent, if_neg h, emailsSentInMonth] at ih ⊢
      rw [List.filter_cons_of_neg (by simpa using h),
        List.filter_cons_of_neg (by simpa using h)]
      exact ih

theorem track_email_sent_fresh (uid month : Nat) (usage : List UsageRow)
    (h : ∀ row ∈ usage, ¬(row.user_id = uid ∧ row.month = month)) :
    track_email_sent uid month usage
      = usage ++ [{ user_id := uid, month := month, emails_sent := 1 }] := by
  induction usage with
  | nil => rfl
  | cons row rest ih =>
    rw [track_email_sent, if_neg (h row (List.mem_cons_self row rest))]
    rw [ih (fun r hr => h r (List.mem_cons_of_mem row hr))]
    rfl

theorem create_demo_leads_spec (u : User) (r : DiscoverRequest) (industry : String)
    (h : pyDictGet r.target_industry "businesses" = some industry) :
    ∃ out, create_demo_leads u r = Except.ok out ∧
      out.1.length = min (r.max_leads.getD 5) 3 ∧
      out.1.map (fun l => l.company_name)
        = ["Demo " ++ PyStr.title industry ++ " Company 1",
           "Sample " ++ PyStr.title industry ++ " Business 2",
           "Test " ++ PyStr.title industry ++ " Corp 3"].take
            (min (r.max_leads.getD 5) 3) ∧
      out.2.leads_used = u.leads_used + out.1.length := by
  unfold create_demo_leads
  rw [h]
  refine ⟨_, rfl, ?_, ?_, rfl⟩
  · simp only [demo_leads_list, List.length_map, List.length_take,
      List.length_cons, List.length_nil]
    omega
  · simp only [demo_leads_list, List.map_take, List.map_cons, List.map_nil]
    rw [List.take_eq_take]
    simp only [List.length_cons, List.length_nil]
    omega

theorem create_demo_leads_none (u : User) (r : DiscoverRequest)
    (h : pyDictGet r.target_industry "businesses" = none) :
    create_demo_leads u r
      = Except.error "AttributeError: NoneType object has no attribute title" := by
  unfold create_demo_leads
  rw [h]

theorem fold_process_websites (industry : Option String)
    (findEmail : String → String → Option String)
    (genEmail : String → Option String → String → String × String) :
    ∀ (bs : List Business) (acc : List Lead × User),
      ((bs.foldl (processBusiness industry findEmail genEmail) acc).1.map
        (fun l => l.website))
        = acc.1.map (fun l => l.website) ++ bs.map (fun b => b.website) := by
  intro bs
  induction bs with
  | nil => intro acc; simp
  | cons b rest ih =>
    intro acc
    rw [List.foldl_cons, ih]
    simp [processBusiness]

end Backend

/-! ## Claim C1 -/

/-- C1, counterexample.  The claim states that at most one stored lead per
(owner, normalized website) pair survives insertion, and that in particular
`http://Example.com/` and `https://www.example.com` inserted for the same
owner leave at most one stored lead.  In the CLI spreadsheet store the
normalization is `lower().strip().rstrip('/')` on the full URL string — it
strips neither the scheme nor a leading `www.` — so the two example URLs do
not normalize to the same value and both insertions succeed, leaving two
stored rows; and the backend's `discover_leads_task` performs no duplicate
check at all, so discovering the same pair stores two `Lead` documents. -/
theorem C1_counterexample :
    (SheetsManager.add_lead
        ((SheetsManager.add_lead [] { website := "http://Example.com/" } "t1").2)
        { website := "https://www.example.com" } "t2").1.success = true ∧
    (SheetsManager.add_lead
        ((SheetsManager.add_lead [] { website := "http://Example.com/" } "t1").2)
        { website := "https://www.example.com" } "t2").1.dup = false ∧
    (SheetsManager.add_lead
        ((SheetsManager.add_lead [] { website := "http://Example.com/" } "t1").2)
        { website := "https://www.example.com" } "t2").2.length = 2 ∧
    (Backend.discover_leads_task { id := 1, serpapi_key := some "k" } {}
        (Except.ok [{ company_name := "A", website := "http://Example.com/" },
                    { company_name := "B", website := "https://www.example.com" }])
        (fun _ _ => none) (fun _ _ _ => ("", ""))).1.length = 2 ∧
    (Backend.discover_leads_task { id := 1, serpapi_key := some "k" } {}
        (Except.ok [{ company_name := "A", website := "http://Example.com/" },
                    { company_name := "B", website := "https://www.example.com" }])
        (fun _ _ => none) (fun _ _ _ => ("", ""))).1.map (fun l => l.website)
      = ["http://Example.com/", "https://www.example.com"] := by
  decide

/-- C1 (amended): within the CLI spreadsheet store, insertion through
`add_lead` preserves the invariant that no two stored rows share a
normalized website, where normalization lower-cases, trims, and strips
trailing slashes of the full URL string (no scheme or `www.` stripping);
the backend database store enforces no such invariant — for every
successful non-empty search, `discover_leads_task` stores one `Lead` per
returned business with its website verbatim, with no duplicate check of
any kind. -/
theorem C1_theorem :
    (∀ (sheet : SheetsManager.Sheet), SheetsManager.NoDupWebsites sheet →
      ∀ inserts : List (SheetsManager.LeadData × String),
        SheetsManager.NoDupWebsites (SheetsManager.addAll sheet inserts)) ∧
    (∀ (u : Backend.User) (r : Backend.DiscoverRequest)
        (bs : List Backend.Business)
        (findEmail : String → String → Option String)
        (genEmail : String → Option String → String → String × String),
      PyStr.truthy u.serpapi_key = true → bs ≠ [] →
        (Backend.discover_leads_task u r (Except.ok bs) findEmail genEmail).1.map
            (fun l => l.website)
          = bs.map (fun b => b.website)) := by
  refine ⟨fun sheet h inserts => SheetsManager.noDup_addAll inserts h, ?_⟩
  intro u r bs findEmail genEmail hk hbs
  cases bs with
  | nil => exact absurd rfl hbs
  | cons b rest =>
    have hd : Backend.discover_leads_task u r (Except.ok (b :: rest))
        findEmail genEmail
        = (b :: rest).foldl
            (Backend.processBusiness (Backend.pyDictGet r.target_industry "businesses")
              findEmail genEmail) ([], u) := by
      rw [Backend.discover_leads_task.eq_def, hk]
      simp
    rw [hd, Backend.fold_process_websites]
    simp

/-- C1, witness: the invariant theorem applied to a concrete empty sheet
with two concrete insertions, and the backend no-deduplication theorem
applied to a concrete keyed user with a search returning the example pair. -/
theorem C1_witness :
    SheetsManager.NoDupWebsites ([] : SheetsManager.Sheet) ∧
    SheetsManager.NoDupWebsites (SheetsManager.addAll []
      [({ website := "http://Example.com/" }, "t1"),
       ({ website := "https://www.example.com" }, "t2")]) ∧
    (Backend.discover_leads_task { id := 1, serpapi_key := some "k" } {}
        (Except.ok [{ company_name := "A", website := "http://Example.com/" },
                    { company_name := "B", website := "https://www.example.com" }])
        (fun _ _ => none) (fun _ _ _ => ("", ""))).1.map (fun l => l.website)
      = [{ company_name := "A", website := "http://Example.com/" },
         ({ company_name := "B", website := "https://www.example.com" } :
            Backend.Business)].map (fun b => b.website) :=
  ⟨by decide, C1_theorem.1 [] (by decide) _,
   C1_theorem.2 { id := 1, serpapi_key := some "k" } {}
     [{ company_name := "A", website := "http://Example.com/" },
      { company_name := "B", website := "https://www.example.com" }]
     (fun _ _ => none) (fun _ _ _ => ("", "")) (by decide)
     (List.cons_ne_nil _ _)⟩


/-! ## Claim C2 -/

/-- C2, counterexample.  The claim states that for a user with no
search-API key, every discovery request yields exactly `min(max_leads, 5)`
leads.  Two reachable inputs refute it: the `demo_leads` template list has
only three entries, so a request with the industry key absent and
`max_leads = 5` creates 3 leads, not `min(5, 5) = 5`; and a request whose
`target_industry` key is present with value `None` — how the endpoint's
`request.dict()` encodes an omitted industry — makes `industry.title()`
raise `AttributeError`, the task's top-level handler swallows it, and zero
leads are created. -/
theorem C2_counterexample :
    (Backend.discover_leads_task { id := 1 } { max_leads := some 5 }
        (Except.ok []) (fun _ _ => none) (fun _ _ _ => ("", ""))).1.length = 3 ∧
    (Backend.discover_leads_task { id := 1 } { max_leads := some 5 }
        (Except.ok []) (fun _ _ => none) (fun _ _ _ => ("", ""))).1.length
      ≠ min 5 5 ∧
    (Backend.discover_leads_task { id := 1 }
        { target_industry := some none, max_leads := some 2 }
        (Except.ok []) (fun _ _ => none) (fun _ _ _ => ("", ""))).1.length = 0 ∧
    (Backend.discover_leads_task { id := 1 }
        { target_industry := some none, max_leads := some 2 }
        (Except.ok []) (fun _ _ => none) (fun _ _ _ => ("", ""))).1.length
      ≠ min 2 5 := by
  decide

/-- C2 (amended): for a user with no search-API key, when the request's
`target_industry` resolves to a string (a string value, or an absent key
defaulting to "businesses"), `discover_leads_task` creates exactly
`min(max_leads, 3)` leads — the `min(max_leads, 5)` cap is further
limited by the three-entry demo template list — with deterministic
company names derived from that industry, and increments `leads_used` by
exactly that count; when `target_industry` is present with value `None`
(the endpoint's encoding of an omitted industry), `_create_demo_leads`
raises `AttributeError` at `industry.title()`, the task's top-level
handler swallows it, and no lead is created and `leads_used` is
unchanged. -/
theorem C2_theorem (u : Backend.User) (r : Backend.DiscoverRequest)
    (search : Except String (List Backend.Business))
    (findEmail : String → String → Option String)
    (genEmail : String → Option String → String → String × String)
    (h : PyStr.truthy u.serpapi_key = false) :
    (∀ industry, Backend.pyDictGet r.target_industry "businesses" = some industry →
      (Backend.discover_leads_task u r search findEmail genEmail).1.length
        = min (r.max_leads.getD 5) 3 ∧
      (Backend.discover_leads_task u r search findEmail genEmail).1.map
          (fun l => l.company_name)
        = ["Demo " ++ PyStr.title industry ++ " Company 1",
           "Sample " ++ PyStr.title industry ++ " Business 2",
           "Test " ++ PyStr.title industry ++ " Corp 3"].take
            (min (r.max_leads.getD 5) 3) ∧
      (Backend.discover_leads_task u r search findEmail genEmail).2.leads_used
        = u.leads_used +
          (Backend.discover_leads_task u r search findEmail genEmail).1.length) ∧
    (Backend.pyDictGet r.target_industry "businesses" = none →
      Backend.discover_leads_task u r search findEmail genEmail = ([], u)) := by
  have hd : Backend.discover_leads_task u r search findEmail genEmail
      = Backend.runDemoFallback u r := by
    rw [Backend.discover_leads_task.eq_def, h]
    simp
  constructor
  · intro industry hind
    obtain ⟨out, hout, h1, h2, h3⟩ := Backend.create_demo_leads_spec u r industry hind
    rw [hd, Backend.runDemoFallback, hout]
    exact ⟨h1, h2, h3⟩
  · intro hnone
    rw [hd, Backend.runDemoFallback, Backend.create_demo_leads_none u r hnone]

/-- C2, witness: a concrete key-less user requesting two leads for the
industry "tech" gets `min(2, 3) = 2` demo leads. -/
theorem C2_witness :
    (Backend.discover_leads_task { id := 3 }
        { target_industry := some (some "tech"), max_leads := some 2 }
        (Except.ok []) (fun _ _ => none) (fun _ _ _ => ("", ""))).1.length
      = min 2 3 :=
  ((C2_theorem { id := 3 }
      { target_industry := some (some "tech"), max_leads := some 2 }
      (Except.ok []) (fun _ _ => none) (fun _ _ _ => ("", "")) rfl).1
    "tech" rfl).1

/-! ## Claim C3 -/

/-- C3: the `/api/leads/discover` endpoint first rejects with a 402 error
when `leads_used + max_leads` exceeds `lead_limit`, then rejects with a
403 error when `max_leads` exceeds the plan's per-request cap
(free 10, pro 100, enterprise 999999); a rejection is raised before
`background_tasks.add_task`, so no lead is created and no counter changes
(only the `started` outcome schedules the discovery task). -/
theorem C3_theorem (u : Backend.User) (m : Nat) (tid : String) :
    (Backend.planLimit "free" = 10 ∧ Backend.planLimit "pro" = 100 ∧
      Backend.planLimit "enterprise" = 999999) ∧
    (u.leads_used + m > u.lead_limit →
      ∃ d, Backend.discover_leads_endpoint u m tid
        = Backend.DiscoverOutcome.rejected ⟨402, d⟩) ∧
    (u.leads_used + m ≤ u.lead_limit → m > Backend.planLimit u.plan →
      ∃ d, Backend.discover_leads_endpoint u m tid
        = Backend.DiscoverOutcome.rejected ⟨403, d⟩) := by
  refine ⟨⟨rfl, rfl, rfl⟩, ?_, ?_⟩
  · intro h
    rw [Backend.discover_leads_endpoint, if_pos h]
    by_cases h0 : u.lead_limit - u.leads_used = 0
    · rw [if_pos h0]; exact ⟨_, rfl⟩
    · rw [if_neg h0]; exact ⟨_, rfl⟩
  · intro h1 h2
    rw [Backend.discover_leads_endpoint, if_neg (by omega), if_pos h2]
    exact ⟨_, rfl⟩

/-- C3, witness: a user with 45 of 50 leads used requesting 10 is rejected
with a 402; a fresh free-plan user requesting 50 is rejected with a 403. -/
theorem C3_witness :
    (∃ d, Backend.discover_leads_endpoint { id := 1, leads_used := 45 } 10 "t"
      = Backend.DiscoverOutcome.rejected ⟨402, d⟩) ∧
    (∃ d, Backend.discover_leads_endpoint { id := 2 } 50 "t"
      = Backend.DiscoverOutcome.rejected ⟨403, d⟩) :=
  ⟨(C3_theorem { id := 1, leads_used := 45 } 10 "t").2.1 (by decide),
   (C3_theorem { id := 2 } 50 "t").2.2 (by decide) (by decide)⟩

/-! ## Claim C4 -/

/-- C4: `EmailService.send_email` returns a structured failure without
attempting any SMTP connection when the lead has no contact email or when
any SMTP setting is unset (formalized: the result is a failure that leaves
the lead and the usage rows unchanged and does not depend on the SMTP
world at all); and on a successful SMTP send it sets the lead's status to
`contacted`, persists it, and increments the sender's current-month
`emails_sent` by exactly one, creating the month's usage row with
`emails_sent = 1` when none exists. -/
theorem C4_theorem (u : Backend.User) (lead : Backend.Lead) (month : Nat)
    (usage : List Backend.UsageRow) :
    ((PyStr.truthy lead.contact_email = false ∨ Backend.smtpConfigured u = false) →
      ∀ smtp smtp',
        (Backend.send_email u lead smtp month usage).1.success = false ∧
        (Backend.send_email u lead smtp month usage).2.1 = lead ∧
        (Backend.send_email u lead smtp month usage).2.2 = usage ∧
        Backend.send_email u lead smtp month usage
          = Backend.send_email u lead smtp' month usage) ∧
    (Backend.smtpConfigured u = true → PyStr.truthy lead.contact_email = true →
      (Backend.send_email u lead Backend.SMTPResult.ok month usage).1.success = true ∧
      (Backend.send_email u lead Backend.SMTPResult.ok month usage).2.1.status
        = "contacted" ∧
      Backend.emailsSentInMonth u.id month
          (Backend.send_email u lead Backend.SMTPResult.ok month usage).2.2
        = Backend.emailsSentInMonth u.id month usage + 1 ∧
      ((∀ row ∈ usage, ¬(row.user_id = u.id ∧ row.month = month)) →
        (Backend.send_email u lead Backend.SMTPResult.ok month usage).2.2
          = usage ++ [{ user_id := u.id, month := month, emails_sent := 1 }])) := by
  constructor
  · intro h smtp smtp'
    rcases h with hmail | hconf
    · by_cases hconf : Backend.smtpConfigured u = false
      · simp [Backend.send_email, hconf]
      · simp [Backend.send_email, hconf, hmail]
    · simp [Backend.send_email, hconf]
  · intro hconf hmail
    have hsend : Backend.send_email u lead Backend.SMTPResult.ok month usage
        = ({ success := true,
             message := "Email sent successfully to " ++ Backend.pyOptStr lead.contact_email },
           { lead with status := "contacted" },
           Backend.track_email_sent u.id month usage) := by
      simp [Backend.send_email, hconf, hmail]
    rw [hsend]
    exact ⟨rfl, rfl, Backend.emailsSentInMonth_track u.id month usage,
      fun hfresh => Backend.track_email_sent_fresh u.id month usage hfresh⟩

/-- C4, witness: for a fully configured user and a lead with a contact
email, a successful SMTP send marks the lead `contacted`. -/
theorem C4_witness :
    (Backend.send_email
        { id := 7, smtp_host := some "smtp.example.com", smtp_port := some 587,
          smtp_username := some "u", smtp_password := some "p",
          smtp_from_email := some "me@example.com" }
        { user_id := 7, company_name := "Acme", contact_email := some "a@acme.com" }
        Backend.SMTPResult.ok 1 []).2.1.status = "contacted" :=
  ((C4_theorem
      { id := 7, smtp_host := some "smtp.example.com", smtp_port := some 587,
        smtp_username := some "u", smtp_password := some "p",
        smtp_from_email := some "me@example.com" }
      { user_id := 7, company_name := "Acme", contact_email := some "a@acme.com" }
      1 []).2 (by decide) (by decide)).2.1

namespace WebAnalyzer

theorem mem_of_mem_dedupFirstAux :
    ∀ {xs : List String} {seen x}, x ∈ dedupFirstAux seen xs → x ∈ xs := by
  intro xs
  induction xs with
  | nil => intro seen x h; simp [dedupFirstAux] at h
  | cons y ys ih =>
    intro seen x h
    rw [dedupFirstAux] at h
    by_cases hy : y ∈ seen
    · rw [if_pos hy] at h
      exact List.mem_cons_of_mem y (ih h)
    · rw [if_neg hy] at h
      rcases List.mem_cons.mp h with rfl | h'
      · exact List.mem_cons_self _ _
      · exact List.mem_cons_of_mem y (ih h')

theorem nodup_dedupFirstAux :
    ∀ (xs : List String) (seen), (dedupFirstAux seen xs).Nodup ∧
      ∀ x ∈ dedupFirstAux seen xs, x ∉ seen := by
  intro xs
  induction xs with
  | nil => intro seen; exact ⟨List.nodup_nil, by simp [dedupFirstAux]⟩
  | cons y ys ih =>
    intro seen
    rw [dedupFirstAux]
    by_cases hy : y ∈ seen
    · rw [if_pos hy]
      exact ih seen
    · rw [if_neg hy]
      obtain ⟨hnd, hns⟩ := ih (y :: seen)
      refine ⟨List.nodup_cons.mpr
        ⟨fun hmem => (hns y hmem) (List.mem_cons_self _ _), hnd⟩, ?_⟩
      intro x hx
      rcases List.mem_cons.mp hx with rfl | hx'
      · exact hy
      · intro hxs
        exact hns x hx' (List.mem_cons_of_mem _ hxs)

theorem length_lt_of_mem_collected {soup : Soup} {x : String}
    (hx : x ∈ collectedServices soup) : x.length < 100 := by
  rw [collectedServices, List.mem_flatMap] at hx
  obtain ⟨kw, -, hx⟩ := hx
  rw [List.mem_flatMap] at hx
  obtain ⟨sec, -, hx⟩ := hx
  rw [sectionTexts, List.mem_append] at hx
  rcases hx with hx | hx <;>
  · rw [List.mem_filter] at hx
    have hk := hx.2
    simp only [keepText, Bool.and_eq_true, decide_eq_true_eq] at hk
    exact hk.2

theorem extract_services_spec (soup : Soup) :
    extract_services soup ≠ [] ∧
    (extract_services soup).length ≤ 15 ∧
    (∀ s ∈ extract_services soup, s.length < 100) ∧
    (extract_services soup).Nodup := by
  have hval : extract_services soup =
      if (dedupFirst (collectedServices soup)).take 15 = []
      then ["General Business Services"]
      else (dedupFirst (collectedServices soup)).take 15 := rfl
  rw [hval]
  by_cases h : (dedupFirst (collectedServices soup)).take 15 = []
  · rw [if_pos h]
    refine ⟨by simp, by simp, ?_, List.nodup_singleton _⟩
    intro s hs
    rw [List.mem_singleton] at hs
    subst hs
    decide
  · rw [if_neg h]
    refine ⟨h, List.length_take_le _ _, ?_, ?_⟩
    · intro s hs
      exact length_lt_of_mem_collected
        (mem_of_mem_dedupFirstAux (List.mem_of_mem_take hs))
    · exact List.Nodup.sublist (List.take_sublist _ _)
        (nodup_dedupFirstAux _ []).1

end WebAnalyzer

namespace LeadDiscovery

theorem replaceFuel_www :
    ∀ (l : List Char) (fuel : Nat), l.length ≤ fuel →
      PyStr.replaceFuel ['w', 'w', 'w', '.'] [] fuel l = removeWwwDot l := by
  intro l
  induction l using removeWwwDot.induct with
  | case1 rest ih =>
    intro fuel hf
    cases fuel with
    | zero => simp at hf
    | succ f =>
      rw [PyStr.replaceFuel, if_pos]
      · have hrest : rest.length ≤ f := by
          simp only [List.length_cons] at hf
          omega
        exact (ih f hrest).trans (removeWwwDot.eq_1 rest).symm
      · exact ⟨by simp, by simp [List.isPrefixOf]⟩
  | case2 c rest h ih =>
    intro fuel hf
    cases fuel with
    | zero => simp at hf
    | succ f =>
      have hrest : rest.length ≤ f := by
        simp only [List.length_cons] at hf
        omega
      rw [PyStr.replaceFuel, if_neg, removeWwwDot.eq_2 c rest h, ih f hrest]
      rintro ⟨-, hpre⟩
      rw [ List.isPrefixOf_iff_prefix] at hpre
      obtain ⟨t, ht⟩ := hpre
      simp only [List.cons_append, List.nil_append] at ht
      injection ht with hc hr
      exact h t hc.symm hr.symm
  | case3 =>
    intro fuel hf
    cases fuel <;> rfl

theorem replace_www (s : String) :
    PyStr.replace s "www." "" = String.mk (removeWwwDot s.data) := by
  rw [PyStr.replace,
    show "www.".data = ['w', 'w', 'w', '.'] from rfl,
    show "".data = ([] : List Char) from rfl,
    replaceFuel_www s.data s.data.length le_rfl]

theorem extract_domain_eq_amendedSpec (url : String) :
    extract_domain url = extract_domain_amendedSpec url := by
  cases hp : parseNetlocPath url with
  | none =>
    unfold extract_domain extract_domain_amendedSpec
    rw [hp]
  | some np =>
    obtain ⟨n, p⟩ := np
    unfold extract_domain extract_domain_amendedSpec
    rw [hp]
    show PyStr.lower (PyStr.replace (if n ≠ "" then n else p) "www." "")
      = PyStr.lower (String.mk (removeWwwDot (if n ≠ "" then n else p).data))
    rw [replace_www]

end LeadDiscovery

/-! ## Claim C6 -/

/-- C6, counterexample.  The claim quantifies over every result returned
by `analyze_website`, but the fetch-failure branch
(`requests.RequestException`) returns a result whose `services` field is
the empty list, not a non-empty list. -/
theorem C6_counterexample :
    (WebAnalyzer.analyze_website "http://u.example" (Except.error "timeout")).services
      = [] ∧
    (WebAnalyzer.analyze_website "http://u.example" (Except.error "timeout")).success
      = false :=
  ⟨rfl, rfl⟩

/-- C6 (amended): for every successful result of `analyze_website` (a
fetch that returned a parsed page), `services` is a non-empty list of
deduplicated entries, at most 15 of them, each under 100 characters —
either extracted service texts or the single placeholder
"General Business Services"; a fetch failure instead yields
`services = []`. -/
theorem C6_theorem (url : String) (soup : WebAnalyzer.Soup) :
    (WebAnalyzer.analyze_website url (Except.ok soup)).services ≠ [] ∧
    (WebAnalyzer.analyze_website url (Except.ok soup)).services.length ≤ 15 ∧
    (∀ s ∈ (WebAnalyzer.analyze_website url (Except.ok soup)).services,
      s.length < 100) ∧
    (WebAnalyzer.analyze_website url (Except.ok soup)).services.Nodup := by
  have h : (WebAnalyzer.analyze_website url (Except.ok soup)).services
      = WebAnalyzer.extract_services soup := rfl
  rw [h]
  exact WebAnalyzer.extract_services_spec soup

/-! ## Claim C7 -/

/-- C7, counterexample.  The claim says `_extract_domain` lower-cases the
network location and strips a single leading `www.` prefix.  The code
instead runs `.replace('www.', '')` — removing every occurrence,
case-sensitively — before `.lower()`.  Both differences are visible:
`http://a.www.b.com` keeps its non-leading `www.` under the claim's
algorithm but loses it under the code's, and `http://WWW.Example.com`
keeps its upper-case `WWW.` under the code (the replace runs before
lower-casing) while the claim's algorithm strips it. -/
theorem C7_counterexample :
    LeadDiscovery.extract_domain "http://a.www.b.com" = "a.b.com" ∧
    LeadDiscovery.extract_domain_claimVersion "http://a.www.b.com" = "a.www.b.com" ∧
    LeadDiscovery.extract_domain "http://a.www.b.com"
      ≠ LeadDiscovery.extract_domain_claimVersion "http://a.www.b.com" ∧
    LeadDiscovery.extract_domain "http://WWW.Example.com" = "www.example.com" ∧
    LeadDiscovery.extract_domain_claimVersion "http://WWW.Example.com"
      = "example.com" := by
  decide

/-- C7 (amended): `_extract_domain` parses the URL, takes the network
location (or the path as fallback), removes every occurrence of the
substring `www.` from it (case-sensitively, before any lower-casing),
then lower-cases the result; on parse failure (a `[`/`]` bracket mismatch
in the authority, the only `ValueError` `urlparse` raises here) it
returns the lower-cased raw input string. -/
theorem C7_theorem (url : String) :
    LeadDiscovery.extract_domain url = LeadDiscovery.extract_domain_amendedSpec url ∧
    (LeadDiscovery.parseNetlocPath url = none →
      LeadDiscovery.extract_domain url = PyStr.lower url) := by
  refine ⟨LeadDiscovery.extract_domain_eq_amendedSpec url, fun h => ?_⟩
  unfold LeadDiscovery.extract_domain
  rw [h]

/-- C7, witness: a concrete URL with a mismatched bracket in the
authority takes the parse-failure branch. -/
theorem C7_witness :
    LeadDiscovery.extract_domain "http://[" = PyStr.lower "http://[" :=
  ( C7_theorem "http://[").2 (by decide)

namespace Analytics

theorem industryCount_bump (m : List (String × Nat)) (i j : String) :
    industryCount m j ≤ industryCount (bumpIndustry m i) j := by
  induction m with
  | nil => simp [bumpIndustry, industryCount]
  | cons kv rest ih =>
    obtain ⟨k, v⟩ := kv
    have ih' := ih
    rw [industryCount, industryCount] at ih'
    rw [bumpIndustry]
    by_cases hk : k = i
    · rw [if_pos hk, industryCount, industryCount]
      by_cases hj : k = j
      · rw [List.filter_cons_of_pos (by simpa using hj),
          List.filter_cons_of_pos (by simpa using hj)]
        simp only [List.map_cons, List.sum_cons]
        omega
      · rw [List.filter_cons_of_neg (by simpa using hj),
          List.filter_cons_of_neg (by simpa using hj)]
    · rw [if_neg hk, industryCount, industryCount]
      by_cases hj : k = j
      · rw [List.filter_cons_of_pos (by simpa using hj),
          List.filter_cons_of_pos (by simpa using hj)]
        simp only [List.map_cons, List.sum_cons]
        omega
      · rw [List.filter_cons_of_neg (by simpa using hj),
          List.filter_cons_of_neg (by simpa using hj)]
        exact ih'

theorem industryCount_foldl (inds : List String) :
    ∀ (m : List (String × Nat)) (j : String),
      industryCount m j ≤ industryCount (inds.foldl bumpIndustry m) j := by
  induction inds with
  | nil => intro m j; exact le_rfl
  | cons i rest ih =>
    intro m j
    exact le_trans (industryCount_bump m i j) (ih (bumpIndustry m i) j)

theorem record_run_mono (d : Data) (r : RunRecord) :
    d.total_runs ≤ (record_run d r).total_runs ∧
    d.total_leads_discovered ≤ (record_run d r).total_leads_discovered ∧
    d.total_emails_generated ≤ (record_run d r).total_emails_generated ∧
    d.total_portfolios_created ≤ (record_run d r).total_portfolios_created ∧
    d.total_duplicates_found ≤ (record_run d r).total_duplicates_found ∧
    ∀ ind, industryCount d.industries ind
      ≤ industryCount (record_run d r).industries ind :=
  ⟨Nat.le_add_right _ _, Nat.le_add_right _ _, Nat.le_add_right _ _,
   Nat.le_add_right _ _, Nat.le_add_right _ _,
   fun ind => industryCount_foldl r.industries d.industries ind⟩

theorem record_runs_mono (rs : List RunRecord) :
    ∀ d : Data,
      d.total_runs ≤ (record_runs d rs).total_runs ∧
      d.total_leads_discovered ≤ (record_runs d rs).total_leads_discovered ∧
      d.total_emails_generated ≤ (record_runs d rs).total_emails_generated ∧
      d.total_portfolios_created ≤ (record_runs d rs).total_portfolios_created ∧
      d.total_duplicates_found ≤ (record_runs d rs).total_duplicates_found ∧
      ∀ ind, industryCount d.industries ind
        ≤ industryCount (record_runs d rs).industries ind := by
  induction rs with
  | nil =>
    intro d
    exact ⟨le_rfl, le_rfl, le_rfl, le_rfl, le_rfl, fun ind => le_rfl⟩
  | cons r rest ih =>
    intro d
    obtain ⟨s1, s2, s3, s4, s5, s6⟩ := record_run_mono d r
    obtain ⟨t1, t2, t3, t4, t5, t6⟩ := ih (record_run d r)
    exact ⟨le_trans s1 t1, le_trans s2 t2, le_trans s3 t3, le_trans s4 t4,
      le_trans s5 t5, fun ind => le_trans (s6 ind) (t6 ind)⟩

theorem roundTo2_hundred : roundTo2 100 = 100 := by
  rw [roundTo2]
  norm_num [round_eq]

theorem success_rate_all_true (d : Data) (hne : d.runs ≠ [])
    (hall : ∀ r ∈ d.runs, r.success = true) :
    calculate_success_rate d = 100 := by
  rw [calculate_success_rate, if_neg hne]
  have hfilter : d.runs.filter (fun r => r.success) = d.runs :=
    List.filter_eq_self.mpr (fun r hr => by simpa using hall r hr)
  rw [hfilter]
  have hlen : (d.runs.length : ℚ) ≠ 0 := by
    have h0 : d.runs.length ≠ 0 := by simpa using hne
    exact_mod_cast h0
  rw [div_self hlen, one_mul]
  exact roundTo2_hundred

end Analytics

/-! ## Claim C8 -/

/-- C8: across every sequence of `record_run` calls, each cumulative
total (total runs, leads discovered, emails generated, portfolios
created, duplicates found, and every per-industry counter) is
monotonically non-decreasing; `get_summary`'s `success_rate` equals
exactly `round(100 * successful / total, 2)` computed over the recorded
runs, is `0` when no runs are recorded, and is `100` when every recorded
run succeeded. -/
theorem C8_theorem :
    (∀ (d : Analytics.Data) (rs : List Analytics.RunRecord),
      d.total_runs ≤ (Analytics.record_runs d rs).total_runs ∧
      d.total_leads_discovered
        ≤ (Analytics.record_runs d rs).total_leads_discovered ∧
      d.total_emails_generated
        ≤ (Analytics.record_runs d rs).total_emails_generated ∧
      d.total_portfolios_created
        ≤ (Analytics.record_runs d rs).total_portfolios_created ∧
      d.total_duplicates_found
        ≤ (Analytics.record_runs d rs).total_duplicates_found ∧
      ∀ ind, Analytics.industryCount d.industries ind
        ≤ Analytics.industryCount (Analytics.record_runs d rs).industries ind) ∧
    (∀ d : Analytics.Data, (Analytics.get_summary d).success_rate =
      if d.runs = [] then 0
      else Analytics.roundTo2
        (((d.runs.filter (fun r => r.success)).length : ℚ)
          / (d.runs.length : ℚ) * 100)) ∧
    (Analytics.get_summary Analytics.initData).success_rate = 0 ∧
    (∀ d : Analytics.Data, d.runs ≠ [] → (∀ r ∈ d.runs, r.success = true) →
      (Analytics.get_summary d).success_rate = 100) := by
  refine ⟨fun d rs => Analytics.record_runs_mono rs d, fun d => rfl, rfl, ?_⟩
  intro d hne hall
  exact Analytics.success_rate_all_true d hne hall

/-- C8, witness: one recorded successful run yields a success rate of
exactly 100. -/
theorem C8_witness :
    (Analytics.get_summary
      (Analytics.record_runs Analytics.initData
        [{ business_name := "b", leads_found := 2 }])).success_rate = 100 :=
  C8_theorem.2.2.2
    (Analytics.record_runs Analytics.initData
      [{ business_name := "b", leads_found := 2 }])
    (by decide) (by decide)

/-! ## Claim C9 -/

/-- C9, counterexample.  The claim says that on an input with no `BODY:`
marker the remaining lines (after the first) become the body; on the
single-line input "Hello" that would make the body empty, but the code's
fallback `body = ... if len(lines) > 1 else response` returns the whole
input, so both subject and body are "Hello". -/
theorem C9_counterexample :
    AIGenerator.parse_email_response "Hello" = ("Hello", "Hello") ∧
    (AIGenerator.parse_email_response "Hello").2 ≠ "" := by
  decide

/-- C9 (amended): on input containing `BODY:` the text before the first
marker, with every `SUBJECT:` stripped and trimmed, is the subject and
the trimmed remainder the body (so `SUBJECT: Hello\n\nBODY:\nWorld`
yields subject "Hello" and body "World"); on input with no `BODY:`
marker, the input is first stripped and split into lines — the first
line (processed the same way) becomes the subject, and the body is the
newline-join of the remaining lines when there are at least two lines,
else the entire original input (in both cases with `BODY:` stripped and
trimmed). -/
theorem C9_theorem :
    AIGenerator.parse_email_response "SUBJECT: Hello\n\nBODY:\nWorld"
      = ("Hello", "World") ∧
    (∀ s pre post, PyStr.splitFirst s "BODY:" = some (pre, post) →
      AIGenerator.parse_email_response s
        = (PyStr.strip (PyStr.replace pre "SUBJECT:" ""), PyStr.strip post)) ∧
    (∀ s, PyStr.splitFirst s "BODY:" = none →
      ((PyStr.splitLines (PyStr.strip s)).length > 1 →
        AIGenerator.parse_email_response s
          = (PyStr.strip (PyStr.replace
              ((PyStr.splitLines (PyStr.strip s)).headD "Partnership Opportunity")
              "SUBJECT:" ""),
             PyStr.strip (PyStr.replace
               (String.intercalate "\n" (PyStr.splitLines (PyStr.strip s)).tail)
               "BODY:" ""))) ∧
      ((PyStr.splitLines (PyStr.strip s)).length ≤ 1 →
        AIGenerator.parse_email_response s
          = (PyStr.strip (PyStr.replace
              ((PyStr.splitLines (PyStr.strip s)).headD "Partnership Opportunity")
              "SUBJECT:" ""),
             PyStr.strip (PyStr.replace s "BODY:" "")))) := by
  refine ⟨by decide, ?_, ?_⟩
  · intro s pre post h
    unfold AIGenerator.parse_email_response
    rw [h]
  · intro s h
    constructor
    · intro hlen
      unfold AIGenerator.parse_email_response
      rw [h]
      simp only [if_pos hlen]
    · intro hlen
      unfold AIGenerator.parse_email_response
      rw [h]
      simp only [if_neg (by omega : ¬ (PyStr.splitLines (PyStr.strip s)).length > 1)]

/-- C9, witness: a concrete two-part input split at its `BODY:` marker. -/
theorem C9_witness :
    AIGenerator.parse_email_response "A\nBODY:B"
      = (PyStr.strip (PyStr.replace "A\n" "SUBJECT:" ""), PyStr.strip "B") :=
  C9_theorem.2.1 "A\nBODY:B" "A\n" "B" (by decide)

